import Mathlib

/-!
# Verification of the bobafinder analysis and orchestration code

Shallow embedding of the deterministic parts of the `bobafinder` repository
(Python) into Lean 4, together with theorems settling the specification
claims.  Python floats are modelled as exact rationals (`ℚ`), Python ints as
`ℤ`, Python exceptions as the `.error` case of `Except String _`.  External
effects (environment variables, HTTP calls, the current wall-clock time) are
passed in explicitly as data, with a fallible call modelled as an
`Except String _` value injected by the environment.
-/

namespace BobaFinder

/-! ## Python value helpers -/

/-- Python `round(x, 2)`: round to two decimal places, ties to even
(exact-rational model of CPython's `round`). -/
def pyRound2 (x : ℚ) : ℚ :=
  let y := x * 100
  let f := ⌊y⌋
  let r := y - (f : ℚ)
  let n : ℤ :=
    if r < 1/2 then f
    else if 1/2 < r then f + 1
    else if Even f then f else f + 1
  (n : ℚ) / 100

/-- Python `s.endswith(t)`, computed over the character lists (Lean's byte-based
`String.endsWith` does not reduce inside the kernel, which the concrete
witnesses below need). -/
def pyEndsWith (s t : String) : Bool := t.data.isSuffixOf s.data

/-- Python `s[:-1]`. -/
def pyDropLast (s : String) : String := ⟨s.data.dropLast⟩

/-- Substring containment, `pat in l` (Python `in` on strings). -/
def listIsInfix (pat : List Char) : List Char → Bool
  | [] => pat.isEmpty
  | c :: t => pat.isPrefixOf (c :: t) || listIsInfix pat t

/-- Containment `pat in s` for Python strings. -/
def pyContains (s pat : String) : Bool := listIsInfix pat.data s.data

/-- Python `s.lower()` (ASCII case folding, which covers every string the code
compares). -/
def pyLower (s : String) : String := ⟨s.data.map Char.toLower⟩

/-- Python `s[:n]`. -/
def pyTake (s : String) (n : ℕ) : String := ⟨s.data.take n⟩

/-- A run of decimal digits to a natural number; `none` when empty or when
any character is not a digit. -/
def digitsToNat? (cs : List Char) : Option ℕ :=
  if cs.isEmpty then none
  else
    cs.foldl
      (fun acc c =>
        match acc with
        | none => none
        | some n => if c.isDigit then some (n * 10 + (c.toNat - '0'.toNat)) else none)
      (some 0)

/-- Split a character list on `'.'`, keeping empty runs (Python
`str.split('.')`). -/
def splitDot : List Char → List (List Char)
  | [] => [[]]
  | c :: t =>
      if c = '.' then [] :: splitDot t
      else
        match splitDot t with
        | h :: r => (c :: h) :: r
        | [] => [[c]]

/-- Model of Python `int(s)` on the strings the code feeds it: an optional
sign followed by decimal digits; anything else raises (`none`). -/
def pyInt? (s : String) : Option ℤ :=
  match s.data with
  | [] => none
  | c :: t =>
      if c = '-' then (digitsToNat? t).map fun n => -(n : ℤ)
      else if c = '+' then (digitsToNat? t).map fun n => (n : ℤ)
      else (digitsToNat? (c :: t)).map fun n => (n : ℤ)

/-- Mean of a list of Python floats (`np.mean`). -/
def listMean (l : List ℚ) : ℚ := l.sum / l.length

/-- Population variance of a list of Python floats. -/
def listVariance (l : List ℚ) : ℚ :=
  ((l.map fun x => (x - listMean l) ^ 2).sum) / l.length

/-- Model of `np.std`: population standard deviation.  Its value is irrational in
general, so it lives in `ℝ`; every claim below depends on it only through
`Real.sqrt_nonneg`. -/
noncomputable def pyStd (l : List ℚ) : ℝ := Real.sqrt ((listVariance l : ℚ) : ℝ)

/-- The degree-1 least-squares slope computed by `np.polyfit(x, y, 1)[0]`,
in exact rational arithmetic.  (`np.polyfit` itself raises a `TypeError`
when `x` and `y` have different lengths; the callers below model that raise
explicitly before using this formula.) -/
def polyfitSlope (xs ys : List ℚ) : ℚ :=
  let n : ℚ := xs.length
  let sx := xs.sum
  let sy := ys.sum
  let sxy := (List.zipWith (· * ·) xs ys).sum
  let sxx := (xs.map fun x => x * x).sum
  (n * sxy - sx * sy) / (n * sxx - sx * sx)

/-- A timestamp string as consumed by `datetime.fromisoformat` (after the
`'Z' -> '+00:00'` fix-up): either it parses, to an absolute time modelled as
whole seconds since the epoch, or it is junk on which `fromisoformat`
raises. -/
inductive TS where
  | iso (sec : ℤ)
  | junk (s : String)
deriving DecidableEq, Repr

/-- Parse a whole list of timestamps; `none` models the `except Exception`
path taken when any single `datetime.fromisoformat` call raises. -/
def parseIsoTimes : List TS → Option (List ℤ)
  | [] => some []
  | TS.iso s :: t => (parseIsoTimes t).map (s :: ·)
  | TS.junk _ :: _ => none

/-- Test `len(set(l)) > 1`: the list holds two distinct values. -/
def hasTwoDistinct (l : List ℤ) : Bool :=
  match l with
  | [] => false
  | a :: t => t.any fun x => x ≠ a

/-- The `time_deltas` computation shared by both trend-metric
implementations: parse all timestamps, subtract the minimum and floor to
whole days (`timedelta.days` floors toward `-∞`, hence `Int.fdiv`); if any
timestamp fails to parse — or `min` is applied to an empty list — the
`except` branch falls back to `range(len(ratings))`. -/
def timeDeltas (ratingsLen : ℕ) (timestamps : List TS) : List ℤ :=
  match parseIsoTimes timestamps with
  | some (s :: ss) =>
      let first := (s :: ss).foldl min s
      (s :: ss).map fun t => Int.fdiv (t - first) 86400
  | some [] => (List.range ratingsLen).map Int.ofNat
  | none => (List.range ratingsLen).map Int.ofNat

/-- Result record of the trend-metric functions: keys `slope`,
`volatility`, `trend_direction`. -/
structure TrendMetrics where
  slope : ℚ
  volatility : ℝ
  trend_direction : String

/-- The `trend_direction` classification shared by both implementations. -/
def trendDirection (slope : ℚ) : String :=
  if slope > 1/100 then "improving"
  else if slope < -(1/100) then "declining"
  else "stable"

namespace analysis_tools

/-- Embedding of `calculate_trend_metrics` from `src/tools/analysis_tools.py`
(lines 125–173).  The `.error` case models the uncaught `TypeError` that
`np.polyfit` raises when `time_deltas` and `ratings` have different
lengths (the surrounding `try` only covers timestamp parsing). -/
noncomputable def calculate_trend_metrics (ratings : List ℚ) (timestamps : List TS) :
    Except String TrendMetrics :=
  if ratings.length < 2 then
    .ok ⟨0, (0 : ℝ), "insufficient_data"⟩
  else
    let time_deltas := timeDeltas ratings.length timestamps
    if hasTwoDistinct time_deltas then
      if time_deltas.length = ratings.length then
        let slope := polyfitSlope (time_deltas.map fun d : ℤ => (d : ℚ)) ratings
        .ok ⟨slope, pyStd ratings, trendDirection slope⟩
      else
        .error "TypeError: expected x and y to have same length"
    else
      .ok ⟨0, pyStd ratings, trendDirection 0⟩

end analysis_tools

namespace quantitative_analyst

/-- Embedding of `_calculate_trend_metrics_internal` from
`src/agents/quantitative_analyst.py` (lines 301–350); its body is
line-for-line the same as `analysis_tools.calculate_trend_metrics`. -/
noncomputable def _calculate_trend_metrics_internal (ratings : List ℚ) (timestamps : List TS) :
    Except String TrendMetrics :=
  if ratings.length < 2 then
    .ok ⟨0, (0 : ℝ), "insufficient_data"⟩
  else
    let time_deltas := timeDeltas ratings.length timestamps
    if hasTwoDistinct time_deltas then
      if time_deltas.length = ratings.length then
        let slope := polyfitSlope (time_deltas.map fun d : ℤ => (d : ℚ)) ratings
        .ok ⟨slope, pyStd ratings, trendDirection slope⟩
      else
        .error "TypeError: expected x and y to have same length"
    else
      .ok ⟨0, pyStd ratings, trendDirection 0⟩

end quantitative_analyst

/-- Slope of a trend-metric result, `none` on the raising case (projection
helper used to state concrete-input facts without touching the real-valued
`volatility` field). -/
def trendSlopeOf (e : Except String TrendMetrics) : Option ℚ :=
  match e with
  | .ok m => some m.slope
  | .error _ => none

/-- Field `trend_direction` of a trend-metric result, `none` on the raising case. -/
def trendDirOf (e : Except String TrendMetrics) : Option String :=
  match e with
  | .ok m => some m.trend_direction
  | .error _ => none

/-! ## `analyze_competitor_health` (`src/tools/analysis_tools.py`, lines 8–75) -/

/-- A single review record as consumed by the quantitative tools:
`rating` may be absent (`r.get("rating", 0)` then defaults to `0`), and
`timestamp` may be absent or falsy (`none`), in which case the review is
dropped from the timestamp list. -/
structure RawReview where
  rating : Option ℚ
  timestamp : Option TS
deriving DecidableEq, Repr

/-- A business record from the review-fetching tools: either it carries an
`"error"` key, or it is a business with an optional name and a review
list. -/
structure BusinessData where
  hasErrorKey : Bool
  business_name : Option String
  reviews : List RawReview
deriving DecidableEq, Repr

/-- Accessor `r.get("rating", 0)`. -/
def reviewRating (r : RawReview) : ℚ := r.rating.getD 0

/-- Computation `[r.get("timestamp") for r in reviews if r.get("timestamp")]`. -/
def reviewTimestamps (rs : List RawReview) : List TS := rs.filterMap (·.timestamp)

/-- The three `continue` guards of the analysis loop: record carries an
`"error"` key, has no reviews, or has fewer than two ratings (one rating
per review, so this is `len(reviews) < 2`). -/
def skipsBusiness (b : BusinessData) : Bool :=
  b.hasErrorKey || b.reviews.isEmpty || b.reviews.length < 2

/-- Model of Python `float(s)` restricted to optionally-signed decimal
literals (`"12"`, `"-3.5"`, `".5"`); everything else raises (`none`).
(Python also accepts spellings such as `"1e3"` or `"inf"`; no code path
settled below depends on them.) -/
def pyFloat? (s : String) : Option ℚ :=
  match s.data with
  | [] => none
  | c :: t =>
      let sign : ℚ := if c = '-' then -1 else 1
      let body := if c = '-' || c = '+' then t else c :: t
      match splitDot body with
      | [w] => (digitsToNat? w).map fun n => sign * n
      | [w, f] =>
          if w.isEmpty && f.isEmpty then none
          else
            match (if w.isEmpty then some 0 else digitsToNat? w),
                  (if f.isEmpty then some 0 else digitsToNat? f) with
            | some wn, some fn => some (sign * ((wn : ℚ) + (fn : ℚ) / (10 ^ f.length)))
            | _, _ => none
      | _ => none

namespace analysis_tools

/-- Embedding of `_parse_time_period_days` from `src/tools/analysis_tools.py`
(lines 176–188).  `float(...)` on a malformed numeric prefix raises a
`ValueError` that no caller catches, hence the `.error` case. -/
def _parse_time_period_days (time_period : String) : Except String ℚ :=
  if pyEndsWith time_period "d" then
    match pyFloat? (pyDropLast time_period) with
    | some q => .ok q
    | none => .error "ValueError"
  else if pyEndsWith time_period "w" then
    match pyFloat? (pyDropLast time_period) with
    | some q => .ok (q * 7)
    | none => .error "ValueError"
  else if pyEndsWith time_period "m" then
    match pyFloat? (pyDropLast time_period) with
    | some q => .ok (q * 30)
    | none => .error "ValueError"
  else if pyEndsWith time_period "y" then
    match pyFloat? (pyDropLast time_period) with
    | some q => .ok (q * 365)
    | none => .error "ValueError"
  else
    .ok 90

end analysis_tools

/-- One entry of the `analysis` list returned by
`analyze_competitor_health`. -/
structure CompetitorAnalysis where
  business_name : Option String
  average_rating : ℚ
  rating_trend : ℚ
  volatility : ℝ
  review_frequency_per_month : ℚ
  total_reviews : ℕ
  health_status : String
  trend_direction : String

/-- The `summary` sub-dictionary. -/
structure CompetitorSummary where
  strong_performers : ℕ
  moderate_performers : ℕ
  weak_performers : ℕ

/-- The success dictionary returned by `analyze_competitor_health`. -/
structure CompetitorHealthReport where
  competitors_analyzed : ℕ
  analysis : List CompetitorAnalysis
  summary : CompetitorSummary

/-- Outcome type: `analyze_competitor_health` returns either the `{"error": ...}`
dictionary (empty input) or the report dictionary. -/
inductive CompetitorHealthValue where
  | errDict (msg : String)
  | report (r : CompetitorHealthReport)

/-- The `health_status` classification (identical in both copies of
`analyze_competitor_health`). -/
def healthStatus (avg_rating rating_trend : ℚ) : String :=
  if avg_rating ≥ 4.5 ∧ rating_trend ≥ 0 then "strong"
  else if avg_rating ≥ 4 ∧ rating_trend ≥ -(1/10) then "moderate"
  else "weak"

namespace analysis_tools

/-- The loop body of `analyze_competitor_health` for one non-skipped
business record.  A `.error` is an uncaught Python exception: either
`np.polyfit` raising inside `calculate_trend_metrics`, or
`_parse_time_period_days` raising on a malformed period, or the
`ZeroDivisionError` of `len(reviews) / 0.0`. -/
noncomputable def analyzeBusiness (time_period : String) (b : BusinessData) :
    Except String CompetitorAnalysis :=
  let reviews := b.reviews
  let ratings := reviews.map reviewRating
  let timestamps := reviewTimestamps reviews
  match calculate_trend_metrics ratings timestamps with
  | .error e => .error e
  | .ok tm =>
      match _parse_time_period_days time_period with
      | .error e => .error e
      | .ok days =>
          if days = 0 then .error "ZeroDivisionError"
          else
            let review_frequency := (reviews.length : ℚ) / days * 30
            let avg_rating := listMean ratings
            .ok ⟨b.business_name, avg_rating, tm.slope, tm.volatility,
              review_frequency, reviews.length,
              healthStatus avg_rating tm.slope, tm.trend_direction⟩

/-- The `for business in business_data` loop, accumulating the `results`
list and propagating any uncaught exception. -/
noncomputable def analyzeAll (time_period : String) :
    List BusinessData → Except String (List CompetitorAnalysis)
  | [] => .ok []
  | b :: t =>
      if skipsBusiness b then analyzeAll time_period t
      else
        match analyzeBusiness time_period b with
        | .error e => .error e
        | .ok a => (analyzeAll time_period t).map (a :: ·)

/-- Embedding of `analyze_competitor_health` from `src/tools/analysis_tools.py`
(lines 8–75). -/
noncomputable def analyze_competitor_health (business_data : List BusinessData)
    (time_period : String) : Except String CompetitorHealthValue :=
  if business_data.isEmpty then .ok (.errDict "No business data provided")
  else
    match analyzeAll time_period business_data with
    | .error e => .error e
    | .ok results =>
        .ok (.report ⟨results.length, results,
          ⟨(results.filter fun r => r.health_status == "strong").length,
           (results.filter fun r => r.health_status == "moderate").length,
           (results.filter fun r => r.health_status == "weak").length⟩⟩)

end analysis_tools

/-- Decidable wellformedness of the analysis period: it parses and the
resulting day count is non-zero, so that neither `float(...)` nor the
division `len(reviews) / days` raises. -/
def goodPeriod (time_period : String) : Bool :=
  match analysis_tools._parse_time_period_days time_period with
  | .ok d => d ≠ 0
  | .error _ => false

/-- Every review of a record the loop analyzes carries a (truthy)
timestamp; this rules out the length mismatch on which `np.polyfit`
raises. -/
def fullyTimestamped (bd : List BusinessData) : Bool :=
  bd.all fun b => skipsBusiness b || b.reviews.all fun r => r.timestamp.isSome

/-! ## Review-fetching tools (`src/tools/review_tools.py`) -/

/-- Truthiness of a Python `str | None` value (absent, or the empty
string, is falsy). -/
def pyTruthy : Option String → Bool
  | none => false
  | some s => !s.data.isEmpty

namespace review_tools

/-- Embedding of `_parse_time_range` (lines 121–139): turn a range string
into the cutoff time `now - delta`, in epoch seconds.  A malformed numeric
prefix makes `int(...)` raise `ValueError` (the `.error` case). -/
def _parse_time_range (time_range : String) (now : ℤ) : Except String ℤ :=
  if pyEndsWith time_range "d" then
    match pyInt? (pyDropLast time_range) with
    | some days => .ok (now - days * 86400)
    | none => .error "ValueError"
  else if pyEndsWith time_range "w" then
    match pyInt? (pyDropLast time_range) with
    | some weeks => .ok (now - weeks * 7 * 86400)
    | none => .error "ValueError"
  else if pyEndsWith time_range "m" then
    match pyInt? (pyDropLast time_range) with
    | some months => .ok (now - months * 30 * 86400)
    | none => .error "ValueError"
  else if pyEndsWith time_range "y" then
    match pyInt? (pyDropLast time_range) with
    | some years => .ok (now - years * 365 * 86400)
    | none => .error "ValueError"
  else
    .ok (now - 90 * 86400)

/-- One element of `places_result["results"]`. -/
structure GPlace where
  place_id : Option String

/-- One raw review inside a Google place-details response; `time` is
epoch seconds (`.get("time", 0)` defaults to 0). -/
structure GReviewRaw where
  rating : Option ℚ
  text : Option String
  time : Option ℤ

/-- The `"result"` object of a `gmaps.place` details response. -/
structure GPlaceDetails where
  name : Option String
  rating : Option ℚ
  user_ratings_total : Option ℕ
  reviews : List GReviewRaw

/-- The external world as `fetch_google_reviews` observes it: the
`GOOGLE_PLACES_API_KEY` variable, the one `gmaps.places` search call, the
per-place `gmaps.place` details calls, and the current time.  A `.error`
value is the network call raising. -/
structure GoogleEnv where
  apiKey : Option String
  places : Except String (List GPlace)
  placeDetails : String → Except String GPlaceDetails
  now : ℤ

/-- One review dictionary appended to `business_data["reviews"]` (the
`timestamp` isoformat string is modelled by the instant it renders). -/
structure GReviewOut where
  rating : Option ℚ
  text : String
  timestamp : ℤ
  time : ℤ
deriving DecidableEq, Repr

/-- One element of the list `fetch_google_reviews` returns: either an
error record or a business record. -/
inductive GoogleResult where
  | errRec (msg : String)
  | business (name : Option String) (rating : Option ℚ) (review_count : ℕ)
      (reviews : List GReviewOut)

/-- The `for place in places_result...` loop.  A `.error` outcome is an
uncaught exception: `gmaps.place` raising, or `_parse_time_range` raising
on a malformed `time_range` — neither sits inside a `try`. -/
def googleLoop (env : GoogleEnv) (time_range : String) :
    List GPlace → Except String (List GoogleResult)
  | [] => .ok []
  | p :: t =>
      match p.place_id with
      | none => googleLoop env time_range t
      | some pid =>
          if pid.data.isEmpty then googleLoop env time_range t
          else
            match env.placeDetails pid with
            | .error e => .error e
            | .ok det =>
                match _parse_time_range time_range env.now with
                | .error e => .error e
                | .ok cutoff =>
                    let reviews := (det.reviews.filter fun r => cutoff ≤ r.time.getD 0).map
                      fun r => GReviewOut.mk r.rating (r.text.getD "") (r.time.getD 0)
                        (r.time.getD 0)
                    (googleLoop env time_range t).map
                      (GoogleResult.business det.name det.rating (det.user_ratings_total.getD 0)
                        reviews :: ·)

/-- Embedding of `fetch_google_reviews` (lines 9–60).  Nothing in its body
sits inside a `try`, so faults of the search call, of the details calls
and of the time-range parse all propagate (`.error`). -/
def fetch_google_reviews (env : GoogleEnv)
    (location business_type time_range : String) : Except String (List GoogleResult) :=
  if !(pyTruthy env.apiKey) then .ok [.errRec "GOOGLE_PLACES_API_KEY not set"]
  else
    match env.places with
    | .error e => .error e
    | .ok places => googleLoop env time_range (places.take 10)

/-- One element of `search_results["businesses"]`. -/
structure YBusiness where
  id : Option String
  rating : Option ℚ

/-- A `yelp_api.business_query` response. -/
structure YDetails where
  name : Option String
  rating : Option ℚ
  review_count : Option ℕ

/-- The external world as `fetch_yelp_reviews` observes it. -/
structure YelpEnv where
  apiKey : Option String
  search : Except String (List YBusiness)
  businessDetails : String → Except String YDetails
  now : ℤ

/-- The placeholder single-review list built for each Yelp business. -/
structure YReviewOut where
  rating : Option ℚ
  timestamp : ℤ

/-- One element of the list `fetch_yelp_reviews` returns. -/
inductive YelpResult where
  | errRec (msg : String)
  | business (name : Option String) (rating : Option ℚ) (review_count : ℕ)
      (reviews : List YReviewOut)

/-- The `for business in search_results...` loop body (runs inside the
`try`, so its `.error` outcomes are caught by the caller). -/
def yelpLoop (env : YelpEnv) : List YBusiness → Except String (List YelpResult)
  | [] => .ok []
  | b :: t =>
      match b.id with
      | none => yelpLoop env t
      | some bid =>
          if bid.data.isEmpty then yelpLoop env t
          else
            match env.businessDetails bid with
            | .error e => .error e
            | .ok det =>
                (yelpLoop env t).map
                  (YelpResult.business det.name det.rating (det.review_count.getD 0)
                    [⟨b.rating, env.now⟩] :: ·)

/-- Embedding of `fetch_yelp_reviews` (lines 63–118).  The whole body after
the key check sits inside `try/except Exception`, so every fault is
converted into a single `{"error": ...}` record and the function always
returns a list — its Lean type is total. -/
def fetch_yelp_reviews (env : YelpEnv)
    (location business_type time_range : String) : List YelpResult :=
  if !(pyTruthy env.apiKey) then [.errRec "YELP_API_KEY not set"]
  else
    match (do
      let businesses ← env.search
      let _ ← _parse_time_range time_range env.now
      yelpLoop env businesses : Except String (List YelpResult)) with
    | .error e => [.errRec ("Yelp API error: " ++ e)]
    | .ok results => results

/-- Decidable wellformedness of a time-range string: `_parse_time_range`
does not raise on it (this depends only on the string, not on the current
time). -/
def goodTimeRange (time_range : String) : Bool :=
  match _parse_time_range time_range 0 with
  | .ok _ => true
  | .error _ => false

end review_tools

/-! ## Demographic scoring (`src/agents/demographics.py`) -/

/-- The LOW/MODERATE/HIGH banding used by both census scoring functions
(`score_interpretation` keys). -/
def scoreBand (score : ℚ) : String :=
  if score ≥ 70 then "HIGH" else if score ≥ 40 then "MODERATE" else "LOW"

namespace demographics

/-- Census data as the scoring functions consume it: a string-valued
record, looked up with default `"0"`. -/
def censusGet (d : List (String × String)) (k : String) : String :=
  (d.lookup k).getD "0"

/-- Parsing of one census value: falsy or `"null"` gives 0; a parse
failure is caught and contributes the fallback `fb` of its `except`
branch. -/
def parseCensusValue (v : String) (fb : ℤ) : ℤ :=
  if v.data.isEmpty || v == "null" then 0
  else (pyInt? v).getD fb

/-- The twelve 18–34 population variables of `_analyze_age_income`. -/
def ageVariables : List String :=
  ["B01001_007E", "B01001_008E", "B01001_009E", "B01001_010E",
   "B01001_011E", "B01001_012E", "B01001_031E", "B01001_032E",
   "B01001_033E", "B01001_034E", "B01001_035E", "B01001_036E"]

/-- The discretionary-income variables (`income_variables[1:]`). -/
def incomeVariables : List String :=
  ["B19001_014E", "B19001_015E", "B19001_016E", "B19001_017E", "B19001_018E"]

/-- Sum building `age_18_34` (each unparseable value contributes 0 via
`pass`). -/
def age1834Count (d : List (String × String)) : ℤ :=
  (ageVariables.map fun v => parseCensusValue (censusGet d v) 0).sum

/-- Value `total_pop` (fallback 0). -/
def totalPopulation (d : List (String × String)) : ℤ :=
  parseCensusValue (censusGet d "B01001_001E") 0

/-- Sum building `discretionary_income`. -/
def discretionaryCount (d : List (String × String)) : ℤ :=
  (incomeVariables.map fun v => parseCensusValue (censusGet d v) 0).sum

/-- Value `total_households` (parse-failure fallback 1, to avoid division
by zero). -/
def totalHouseholds (d : List (String × String)) : ℤ :=
  parseCensusValue (censusGet d "B19001_001E") 1

/-- Value `median_income` (fallback 0). -/
def medianIncome (d : List (String × String)) : ℤ :=
  parseCensusValue (censusGet d "B19013_001E") 0

/-- Percentage `age_18_34_pct`. -/
def age1834Pct (d : List (String × String)) : ℚ :=
  if 0 < totalPopulation d then
    (age1834Count d : ℚ) / (totalPopulation d : ℚ) * 100
  else 0

/-- Percentage `discretionary_income_pct`. -/
def discretionaryPct (d : List (String × String)) : ℚ :=
  if 0 < totalHouseholds d then
    (discretionaryCount d : ℚ) / (totalHouseholds d : ℚ) * 100
  else 0

/-- The pre-rounding `combined_score` of `_analyze_age_income`. -/
def ageIncomeScore (d : List (String × String)) : ℚ :=
  min (age1834Pct d / 25) 1 * 50 + min (discretionaryPct d / 40) 1 * 50

/-- The dictionary returned by `_analyze_age_income`. -/
structure AgeIncomeResult where
  age_18_34_count : ℤ
  age_18_34_percentage : ℚ
  total_population : ℤ
  median_household_income : ℤ
  discretionary_income_households : ℤ
  discretionary_income_percentage : ℚ
  total_households : ℤ
  age_income_score : ℚ
  score_interpretation : String

/-- Embedding of `_analyze_age_income` (lines 136–242).  The outer
`except` branch is unreachable — every parse already has its own handler —
so the function is total. -/
def _analyze_age_income (d : List (String × String)) : AgeIncomeResult :=
  ⟨age1834Count d, pyRound2 (age1834Pct d), totalPopulation d, medianIncome d,
   discretionaryCount d, pyRound2 (discretionaryPct d), totalHouseholds d,
   pyRound2 (ageIncomeScore d), scoreBand (ageIncomeScore d)⟩

/-- Percentage `asian_pct` of `_analyze_ethnicity_cultural_alignment`. -/
def asianPct (d : List (String × String)) : ℚ :=
  if 0 < parseCensusValue (censusGet d "B03002_001E") 0 then
    (parseCensusValue (censusGet d "B03002_006E") 0 : ℚ) /
      (parseCensusValue (censusGet d "B03002_001E") 0 : ℚ) * 100
  else 0

/-- Percentage `hispanic_pct`. -/
def hispanicPct (d : List (String × String)) : ℚ :=
  if 0 < parseCensusValue (censusGet d "B03002_001E") 0 then
    (parseCensusValue (censusGet d "B03002_012E") 0 : ℚ) /
      (parseCensusValue (censusGet d "B03002_001E") 0 : ℚ) * 100
  else 0

/-- The pre-rounding `cultural_score`. -/
def culturalScore (d : List (String × String)) : ℚ :=
  min (asianPct d / 15) 1 * 70 + min (hispanicPct d / 30) 1 * 30

/-- Banding of `boba_adoption_potential` (thresholds 10 and 5 on the
Asian-population percentage). -/
def bobaBand (p : ℚ) : String :=
  if p ≥ 10 then "HIGH" else if p ≥ 5 then "MODERATE" else "LOW"

/-- The dictionary returned by `_analyze_ethnicity_cultural_alignment`. -/
structure EthnicityResult where
  total_population : ℤ
  asian_population : ℤ
  asian_percentage : ℚ
  hispanic_population : ℤ
  hispanic_percentage : ℚ
  cultural_alignment_score : ℚ
  score_interpretation : String
  boba_adoption_potential : String

/-- Embedding of `_analyze_ethnicity_cultural_alignment`
(lines 245–310). -/
def _analyze_ethnicity_cultural_alignment (d : List (String × String)) : EthnicityResult :=
  ⟨parseCensusValue (censusGet d "B03002_001E") 0,
   parseCensusValue (censusGet d "B03002_006E") 0,
   pyRound2 (asianPct d),
   parseCensusValue (censusGet d "B03002_012E") 0,
   pyRound2 (hispanicPct d),
   pyRound2 (culturalScore d),
   scoreBand (culturalScore d),
   bobaBand (asianPct d)⟩

/-- Decidable hypothesis for the amended C4: every value string in the
census record either fails integer parsing or parses to a non-negative
count. -/
def censusNonneg (d : List (String × String)) : Bool :=
  d.all fun kv => 0 ≤ (pyInt? kv.2).getD 0

end demographics

/-! ## Voice-of-customer functions (`src/agents/voice.py`) -/

namespace voice

/-- The `Review` dataclass (lines 36–43). -/
structure Review where
  text : String
  author : String
  rating : ℤ
  date : Option String
  is_local_guide : Bool
deriving DecidableEq, Repr

/-- The `SentimentCluster` dataclass (lines 46–53). -/
structure SentimentCluster where
  category : String
  positive_count : ℕ
  negative_count : ℕ
  neutral_count : ℕ
  sample_reviews : List String
deriving DecidableEq, Repr

/-- The `BrandLoyaltyScore` dataclass (lines 64–72). -/
structure BrandLoyaltyScore where
  total_reviews : ℕ
  local_guide_count : ℕ
  one_time_tourist_count : ℕ
  local_guide_percentage : ℚ
  supports_regulars_model : Bool
  score : ℚ
deriving DecidableEq, Repr

/-- The four cluster categories, in insertion order. -/
def categoryNames : List String :=
  ["Wait Time", "Sweetness Levels", "Pearl Texture", "Staff Friendliness"]

/-- The keyword table of `cluster_reviews_by_sentiment`. -/
def categoryKeywords (c : String) : List String :=
  if c = "Wait Time" then
    ["wait", "time", "fast", "slow", "quick", "minutes", "hours", "queue", "line", "busy"]
  else if c = "Sweetness Levels" then
    ["sweet", "sugar", "sweetness", "too sweet", "not sweet", "perfectly sweet", "bland"]
  else if c = "Pearl Texture" then
    ["pearl", "boba", "tapioca", "chewy", "soft", "hard", "texture", "q", "perfect"]
  else
    ["staff", "service", "friendly", "rude", "nice", "helpful", "attitude", "customer service"]

/-- A review joins a category when any keyword occurs in its lowercased
text. -/
def reviewMatches (c : String) (r : Review) : Bool :=
  (categoryKeywords c).any fun kw => pyContains (pyLower r.text) kw

/-- The per-category review list (`categories[category]`). -/
def categoryReviews (c : String) (reviews : List Review) : List Review :=
  reviews.filter (reviewMatches c)

/-- Sentiment tallies over the first five reviews of a category
(`category_reviews[:5]`), following the `if rating >= 4 / elif
rating <= 2 / else` cascade. -/
def sentimentCluster (c : String) (reviews : List Review) : SentimentCluster :=
  let sample := (categoryReviews c reviews).take 5
  ⟨c,
   (sample.filter fun r => decide (4 ≤ r.rating)).length,
   (sample.filter fun r => decide (¬ 4 ≤ r.rating) && decide (r.rating ≤ 2)).length,
   (sample.filter fun r => decide (¬ 4 ≤ r.rating) && decide (¬ r.rating ≤ 2)).length,
   sample.map fun r => pyTake r.text 200⟩

/-- Embedding of `cluster_reviews_by_sentiment` (lines 140–199); the
returned dictionary is modelled as an association list in insertion
order. -/
def cluster_reviews_by_sentiment (reviews : List Review) : List (String × SentimentCluster) :=
  categoryNames.map fun c => (c, sentimentCluster c reviews)

/-- Count `local_guide_count`. -/
def localGuideCount (reviews : List Review) : ℕ :=
  (reviews.filter fun r => r.is_local_guide).length

/-- Percentage `local_guide_percentage` (pre-rounding). -/
def localGuidePct (reviews : List Review) : ℚ :=
  if 0 < reviews.length then (localGuideCount reviews : ℚ) / (reviews.length : ℚ) * 100
  else 0

/-- Fraction `repeat_customer_ratio` of the source (a name kept here in
camel case), `(total_reviews - unique_authors) / total_reviews`. -/
def repeatCustomerFrac (reviews : List Review) : ℚ :=
  if 0 < reviews.length then
    ((reviews.length - (reviews.map fun r => r.author).dedup.length : ℕ) : ℚ) /
      (reviews.length : ℚ)
  else 0

/-- The pre-rounding combined loyalty score (60 % local guides, 40 %
repeat customers). -/
def loyaltyScore (reviews : List Review) : ℚ :=
  localGuidePct reviews * (6/10) + repeatCustomerFrac reviews * 100 * (4/10)

/-- Embedding of `calculate_brand_loyalty_score` (lines 263–298). -/
def calculate_brand_loyalty_score (reviews : List Review) : BrandLoyaltyScore :=
  ⟨reviews.length,
   localGuideCount reviews,
   reviews.length - localGuideCount reviews,
   pyRound2 (localGuidePct reviews),
   decide (30 ≤ localGuidePct reviews),
   pyRound2 (loyaltyScore reviews)⟩

end voice

/-! ## The handoff orchestration engine (spec §§4.1–4.3, §8)

Modelled from the spec: the Agent Registry builder, Handoff Router, hop
budget and cycle detector live in the external `langgraph_swarm` /
`langgraph` libraries invoked by `src/main.py` (`create_agent`,
`create_handoff_tool`, `create_swarm`); their code is not part of this
repository, so this namespace follows the spec's contracts (§4.1 registry
build, §4.3 routing with `UnknownHandoffTarget`, `HopBudgetExceeded` and
the window-`K` oscillation detector, §3 hop-counter reset per inbound
message). -/

namespace swarm

/-- Modelled from the spec: an agent definition — a unique name plus its
statically declared handoff targets (the `create_handoff_tool` entries of
its tool list). -/
structure AgentDef where
  name : String
  handoffTargets : List String
deriving DecidableEq, Repr

/-- Modelled from the spec: registry build failures (§4.1). -/
inductive BuildError where
  | DuplicateAgentName
  | DanglingHandoffTarget
deriving DecidableEq, Repr

/-- Names present in a registry / definition set. -/
def registryNames (defs : List AgentDef) : List String := defs.map fun a => a.name

/-- Modelled from the spec: `build(agentDefs) -> Registry`, failing with
`DuplicateAgentName` when two definitions share a name and with
`DanglingHandoffTarget` when some declared target is absent from the
definition set (§4.1). -/
def build (defs : List AgentDef) : Except BuildError (List AgentDef) :=
  if ¬ (registryNames defs).Nodup then .error .DuplicateAgentName
  else if ¬ (defs.all fun a => a.handoffTargets.all fun t => (registryNames defs).contains t) then
    .error .DanglingHandoffTarget
  else .ok defs

/-- Modelled from the spec: routing failures (§4.3). -/
inductive RouteError where
  | UnknownHandoffTarget
  | HopBudgetExceeded
  | HandoffCycleDetected
deriving DecidableEq, Repr

/-- Modelled from the spec: the session state the router touches — active
agent, hop counter for the current inbound message, and the trail of hop
targets (newest first) the cycle detector inspects. -/
structure Session where
  activeAgent : String
  hops : ℕ
  hopTrail : List String
deriving DecidableEq, Repr

/-- Strict A,B,A,B,... alternation check. -/
def altPattern (a b : String) : List String → Bool
  | [] => true
  | x :: t => (x == a) && altPattern b a t

/-- Modelled from the spec: the cycle detector — flags when the last `K`
hops form a repeating A→B→A→B oscillation between two distinct agents
(§4.3, default `K = 4`). -/
def oscillates (trailNewestFirst : List String) (K : ℕ) : Bool :=
  match trailNewestFirst.take K with
  | a :: b :: t => (t.length + 2 == K) && a != b && altPattern a b (a :: b :: t)
  | _ => false

/-- Modelled from the spec: `route(session, directive)` — validates that
the target exists, that the hop counter after increment stays within the
budget, and that the extended trail does not oscillate; on success
switches the active agent and increments the counter (§4.3). -/
def route (reg : List AgentDef) (maxHops K : ℕ) (s : Session) (target : String) :
    Except RouteError Session :=
  if ¬ target ∈ registryNames reg then .error .UnknownHandoffTarget
  else if maxHops < s.hops + 1 then .error .HopBudgetExceeded
  else if oscillates (target :: s.hopTrail) K then .error .HandoffCycleDetected
  else .ok ⟨target, s.hops + 1, target :: s.hopTrail⟩

/-- Modelled from the spec: one oracle decision — a terminal response or a
handoff directive (§9's typed action, restricted to what the router
consumes). -/
inductive OracleStep where
  | respond (text : String)
  | handoff (target : String)

/-- Modelled from the spec: per-message run status (§6; the tool-loop and
store statuses concern components outside these claims). -/
inductive RunStatus where
  | ok
  | unknownHandoffTarget
  | hopBudgetExceeded
  | cycleDetected
  | fuelExhausted
deriving DecidableEq, Repr

/-- Result of processing one inbound message. -/
structure RunResult where
  finalText : Option String
  status : RunStatus
  hopsUsed : ℕ
  session : Session
deriving DecidableEq, Repr

/-- Modelled from the spec: the orchestrator loop — run the active agent's
oracle, route any handoff, repeat (§2 data flow).  `fuel` bounds the
recursion; `processMessage` supplies `maxHops + 1`, which the budget check
makes sufficient. -/
def runLoop (reg : List AgentDef) (oracle : String → ℕ → OracleStep) (maxHops K : ℕ) :
    ℕ → Session → RunResult
  | 0, s => ⟨none, .fuelExhausted, s.hops, s⟩
  | fuel + 1, s =>
      match oracle s.activeAgent s.hops with
      | .respond text => ⟨some text, .ok, s.hops, s⟩
      | .handoff target =>
          match route reg maxHops K s target with
          | .ok s2 => runLoop reg oracle maxHops K fuel s2
          | .error .UnknownHandoffTarget => ⟨none, .unknownHandoffTarget, s.hops, s⟩
          | .error .HopBudgetExceeded => ⟨none, .hopBudgetExceeded, s.hops, s⟩
          | .error .HandoffCycleDetected => ⟨none, .cycleDetected, s.hops + 1, s⟩

/-- Modelled from the spec: `processMessage` — reset the hop counter and
trail for the new inbound message (§3) and run the loop. -/
def processMessage (reg : List AgentDef) (oracle : String → ℕ → OracleStep)
    (maxHops K : ℕ) (s : Session) : RunResult :=
  runLoop reg oracle maxHops K (maxHops + 1) ⟨s.activeAgent, 0, []⟩

/-- The oracle that always hands off, oscillating between two agents. -/
def pingPongOracle (a b : String) : String → ℕ → OracleStep :=
  fun active _ => .handoff (if active == a then b else a)

end swarm

namespace main

/-- The agent definitions `src/main.py` passes to `create_swarm`
(lines 36–119): names and declared handoff targets of `alice`, `bob` and
`quantitative_analyst`.  Note that `quantitative_analyst` declares a
handoff to `"Location Scout"`, which is not among the three definitions. -/
def agentDefs : List swarm.AgentDef :=
  [⟨"Alice", ["Bob", "Quantitative Analyst"]⟩,
   ⟨"Bob", ["Alice", "Quantitative Analyst"]⟩,
   ⟨"Quantitative Analyst", ["Location Scout", "Alice", "Bob"]⟩]

end main

/-! ## Helper lemmas about the trend-metric computation -/

theorem parseIsoTimes_length :
    ∀ (ts : List TS) (l : List ℤ), parseIsoTimes ts = some l → l.length = ts.length := by
  intro ts
  induction ts with
  | nil =>
      intro l h
      simp [parseIsoTimes] at h
      simp [h.symm]
  | cons a t ih =>
      intro l h
      cases a with
      | iso s =>
          simp only [parseIsoTimes] at h
          obtain ⟨l0, hl0, rfl⟩ := Option.map_eq_some'.mp h
          simp [ih l0 hl0]
      | junk s => simp [parseIsoTimes] at h

theorem timeDeltas_length (n : ℕ) (ts : List TS) (h : ts.length = n) :
    (timeDeltas n ts).length = n := by
  unfold timeDeltas
  cases hp : parseIsoTimes ts with
  | none => simp
  | some l =>
      cases l with
      | nil => simp
      | cons s ss =>
          have := parseIsoTimes_length ts (s :: ss) hp
          simp only [List.length_map]
          rw [this, h]

theorem trendDirection_mem (s : ℚ) :
    trendDirection s ∈ (["improving", "declining", "stable", "insufficient_data"] : List String) := by
  unfold trendDirection
  split
  · simp
  · split <;> simp

theorem calculate_trend_metrics_total (ratings : List ℚ) (timestamps : List TS)
    (h : timestamps.length = ratings.length) :
    ∃ m : TrendMetrics,
      analysis_tools.calculate_trend_metrics ratings timestamps = .ok m ∧
      m.trend_direction ∈ (["improving", "declining", "stable", "insufficient_data"] : List String) ∧
      0 ≤ m.volatility := by
  unfold analysis_tools.calculate_trend_metrics
  by_cases h2 : ratings.length < 2
  · rw [if_pos h2]
    exact ⟨_, rfl, by simp, le_refl 0⟩
  · rw [if_neg h2]
    have hlen := timeDeltas_length ratings.length timestamps h
    simp only [hlen, if_true]
    by_cases hd : hasTwoDistinct (timeDeltas ratings.length timestamps) = true
    · rw [if_pos hd]
      exact ⟨_, rfl, trendDirection_mem _, Real.sqrt_nonneg _⟩
    · rw [if_neg hd]
      exact ⟨_, rfl, trendDirection_mem _, Real.sqrt_nonneg _⟩

/-! ## Claim C3 -/

/-- C3 (amended): `calculate_trend_metrics` is a pure function; whenever the
timestamp list has the same length as the rating list it returns (rather
than raises) a record whose `trend_direction` is drawn from
`improving`/`declining`/`stable`/`insufficient_data` and whose `volatility`
is non-negative.  It exposes no 0–100 bounded score and no
LOW/MODERATE/HIGH band. -/
theorem C3_trend_metrics_shape (ratings : List ℚ) (timestamps : List TS)
    (h : timestamps.length = ratings.length) :
    ∃ m : TrendMetrics,
      analysis_tools.calculate_trend_metrics ratings timestamps = .ok m ∧
      m.trend_direction ∈ (["improving", "declining", "stable", "insufficient_data"] : List String) ∧
      0 ≤ m.volatility :=
  calculate_trend_metrics_total ratings timestamps h

/-- Witness for `C3_trend_metrics_shape` at ratings `[5, 1]` with two
parseable timestamps one day apart. -/
theorem C3_trend_metrics_shape_witness :
    ([TS.iso 0, TS.iso 86400] : List TS).length = ([5, 1] : List ℚ).length ∧
    ∃ m : TrendMetrics,
      analysis_tools.calculate_trend_metrics [5, 1] [TS.iso 0, TS.iso 86400] = .ok m ∧
      m.trend_direction ∈ (["improving", "declining", "stable", "insufficient_data"] : List String) ∧
      0 ≤ m.volatility :=
  ⟨rfl, C3_trend_metrics_shape [5, 1] [TS.iso 0, TS.iso 86400] rfl⟩

/-- C3 counterexample: on ratings `[5, 1]` taken one day apart,
`calculate_trend_metrics` returns slope `-4` — a negative number, not a
score bounded in `[0, 100]` — and its only qualitative field is
`"declining"`, which is not drawn from LOW/MODERATE/HIGH. -/
theorem C3_counterexample :
    trendSlopeOf (analysis_tools.calculate_trend_metrics [5, 1] [TS.iso 0, TS.iso 86400])
      = some (-4) ∧
    trendDirOf (analysis_tools.calculate_trend_metrics [5, 1] [TS.iso 0, TS.iso 86400])
      = some "declining" ∧
    ¬ (0 ≤ (-4 : ℚ)) ∧
    "declining" ∉ (["LOW", "MODERATE", "HIGH"] : List String) := by
  refine ⟨?_, ?_, by norm_num, by decide⟩
  · simp [trendSlopeOf, analysis_tools.calculate_trend_metrics, timeDeltas, parseIsoTimes,
      hasTwoDistinct, polyfitSlope, trendDirection]
    norm_num
  · simp [trendDirOf, analysis_tools.calculate_trend_metrics, timeDeltas, parseIsoTimes,
      hasTwoDistinct, polyfitSlope, trendDirection]
    norm_num

/-! ## Claim C9 -/

/-- C9: the trend-metric implementation duplicated in
`tools/analysis_tools.py` and `agents/quantitative_analyst.py` returns
equal results (same slope, volatility and trend direction — and the same
raising behaviour) on every pair of input lists. -/
theorem C9_trend_impls_agree :
    ∀ (ratings : List ℚ) (timestamps : List TS),
      analysis_tools.calculate_trend_metrics ratings timestamps =
        quantitative_analyst._calculate_trend_metrics_internal ratings timestamps :=
  fun _ _ => rfl

/-! ## Claim C8 -/

theorem reviewTimestamps_length (rs : List RawReview)
    (h : rs.all (fun r => r.timestamp.isSome) = true) :
    (reviewTimestamps rs).length = rs.length := by
  induction rs with
  | nil => rfl
  | cons r t ih =>
      simp only [List.all_cons, Bool.and_eq_true] at h
      obtain ⟨ts, hr⟩ := Option.isSome_iff_exists.mp h.1
      simp [reviewTimestamps, List.filterMap_cons, hr]
      have := ih h.2
      simpa [reviewTimestamps] using this

theorem healthStatus_mem (avg trend : ℚ) :
    healthStatus avg trend ∈ (["strong", "moderate", "weak"] : List String) := by
  unfold healthStatus
  split
  · simp
  · split <;> simp

theorem analyzeBusiness_ok (time_period : String) (b : BusinessData)
    (hts : b.reviews.all (fun r => r.timestamp.isSome) = true)
    (hp : goodPeriod time_period = true) :
    ∃ a, analysis_tools.analyzeBusiness time_period b = .ok a ∧
      a.health_status ∈ (["strong", "moderate", "weak"] : List String) := by
  obtain ⟨m, hm, _, _⟩ := calculate_trend_metrics_total (b.reviews.map reviewRating)
    (reviewTimestamps b.reviews)
    (by rw [reviewTimestamps_length _ hts]; simp)
  simp only [analysis_tools.analyzeBusiness]
  rw [hm]
  unfold goodPeriod at hp
  cases hpd : analysis_tools._parse_time_period_days time_period with
  | error e => rw [hpd] at hp; simp at hp
  | ok d =>
      rw [hpd] at hp
      have hd : ¬ (d = 0) := by
        intro h0
        rw [h0] at hp
        simp at hp
      simp only [if_neg hd]
      exact ⟨_, rfl, healthStatus_mem _ _⟩

theorem analyzeAll_ok (time_period : String) (bd : List BusinessData)
    (hts : fullyTimestamped bd = true) (hp : goodPeriod time_period = true) :
    ∃ rs, analysis_tools.analyzeAll time_period bd = .ok rs ∧
      rs.length = (bd.filter fun b => !skipsBusiness b).length ∧
      ∀ a ∈ rs, a.health_status ∈ (["strong", "moderate", "weak"] : List String) := by
  induction bd with
  | nil => exact ⟨[], rfl, rfl, by simp⟩
  | cons b t ih =>
      simp only [fullyTimestamped, List.all_cons, Bool.and_eq_true] at hts
      obtain ⟨hb, ht⟩ := hts
      obtain ⟨rs, hrs, hlen, hmem⟩ := ih ht
      by_cases hs : skipsBusiness b = true
      · refine ⟨rs, ?_, ?_, hmem⟩
        · unfold analysis_tools.analyzeAll
          rw [if_pos hs]
          exact hrs
        · rw [hlen]
          simp [List.filter_cons, hs]
      · have hb2 : b.reviews.all (fun r => r.timestamp.isSome) = true := by
          rcases Bool.or_eq_true_iff.mp hb with h1 | h2
          · exact absurd h1 hs
          · exact h2
        obtain ⟨a, ha, hamem⟩ := analyzeBusiness_ok time_period b hb2 hp
        refine ⟨a :: rs, ?_, ?_, ?_⟩
        · unfold analysis_tools.analyzeAll
          rw [if_neg hs, ha, hrs]
          rfl
        · simp only [List.length_cons, hlen, List.filter_cons]
          have : (!skipsBusiness b) = true := by simp [hs]
          rw [this]
          simp
        · intro x hx
          rcases List.mem_cons.mp hx with rfl | hx2
          · exact hamem
          · exact hmem x hx2

theorem three_way_filter_length (rs : List CompetitorAnalysis)
    (h : ∀ a ∈ rs, a.health_status ∈ (["strong", "moderate", "weak"] : List String)) :
    (rs.filter fun r => r.health_status == "strong").length +
    (rs.filter fun r => r.health_status == "moderate").length +
    (rs.filter fun r => r.health_status == "weak").length = rs.length := by
  induction rs with
  | nil => rfl
  | cons a t ih =>
      have ha := h a (List.mem_cons_self a t)
      have ht := ih fun x hx => h x (List.mem_cons_of_mem _ hx)
      simp only [List.mem_cons, List.mem_singleton, List.not_mem_nil, or_false] at ha
      simp only [List.filter_cons]
      rcases ha with hs | hs | hs <;> rw [hs] <;> simp <;> omega

/-- C8 (amended): on a non-empty business list in which every analyzed
record's reviews all carry timestamps, and for a time period that parses to
a non-zero day count, `analyze_competitor_health` returns the report
dictionary, in which `competitors_analyzed` equals the length of
`analysis`, every entry's `health_status` is one of strong/moderate/weak,
the three summary counters sum to `competitors_analyzed`, and exactly the
records that carry no `"error"` key, have reviews, and have at least two
ratings contribute entries. -/
theorem C8_competitor_health_report (bd : List BusinessData) (tp : String)
    (hne : bd ≠ []) (hts : fullyTimestamped bd = true) (hp : goodPeriod tp = true) :
    ∃ rep : CompetitorHealthReport,
      analysis_tools.analyze_competitor_health bd tp = .ok (.report rep) ∧
      rep.competitors_analyzed = rep.analysis.length ∧
      (∀ a ∈ rep.analysis, a.health_status ∈ (["strong", "moderate", "weak"] : List String)) ∧
      rep.summary.strong_performers + rep.summary.moderate_performers +
        rep.summary.weak_performers = rep.competitors_analyzed ∧
      rep.analysis.length = (bd.filter fun b => !skipsBusiness b).length := by
  obtain ⟨rs, hrs, hlen, hmem⟩ := analyzeAll_ok tp bd hts hp
  unfold analysis_tools.analyze_competitor_health
  rw [if_neg (by simpa [List.isEmpty_iff] using hne), hrs]
  exact ⟨_, rfl, rfl, hmem, three_way_filter_length rs hmem, hlen⟩

/-- Witness for `C8_competitor_health_report`: one healthy business with
two timestamped reviews, period `"30d"`. -/
theorem C8_competitor_health_report_witness :
    (([⟨false, some "Cafe A", [⟨some 5, some (TS.iso 0)⟩, ⟨some 4, some (TS.iso 86400)⟩]⟩] :
        List BusinessData) ≠ []) ∧
    fullyTimestamped
      [⟨false, some "Cafe A", [⟨some 5, some (TS.iso 0)⟩, ⟨some 4, some (TS.iso 86400)⟩]⟩] = true ∧
    goodPeriod "30d" = true ∧
    ∃ rep : CompetitorHealthReport,
      analysis_tools.analyze_competitor_health
        [⟨false, some "Cafe A", [⟨some 5, some (TS.iso 0)⟩, ⟨some 4, some (TS.iso 86400)⟩]⟩]
        "30d" = .ok (.report rep) ∧
      rep.competitors_analyzed = rep.analysis.length ∧
      (∀ a ∈ rep.analysis, a.health_status ∈ (["strong", "moderate", "weak"] : List String)) ∧
      rep.summary.strong_performers + rep.summary.moderate_performers +
        rep.summary.weak_performers = rep.competitors_analyzed ∧
      rep.analysis.length =
        (([⟨false, some "Cafe A", [⟨some 5, some (TS.iso 0)⟩, ⟨some 4, some (TS.iso 86400)⟩]⟩] :
            List BusinessData).filter fun b => !skipsBusiness b).length :=
  ⟨by decide, by decide,
    by simp [goodPeriod, analysis_tools._parse_time_period_days, pyEndsWith, pyDropLast,
      pyFloat?, splitDot, digitsToNat?, List.isSuffixOf, List.isPrefixOf],
    C8_competitor_health_report _ "30d" (by decide) (by decide)
      (by simp [goodPeriod, analysis_tools._parse_time_period_days, pyEndsWith, pyDropLast,
        pyFloat?, splitDot, digitsToNat?, List.isSuffixOf, List.isPrefixOf])⟩

/-- C8 counterexample: on the empty business list (and any period) the
function does not return the report dictionary at all — it returns the
`{"error": "No business data provided"}` dictionary, which carries none of
the claimed fields. -/
theorem C8_counterexample :
    analysis_tools.analyze_competitor_health [] "30d" =
      .ok (.errDict "No business data provided") := rfl

/-! ## Claim C2 -/

theorem goodTimeRange_ok (tr : String) (now : ℤ)
    (h : review_tools.goodTimeRange tr = true) :
    ∃ c, review_tools._parse_time_range tr now = .ok c := by
  unfold review_tools.goodTimeRange at h
  unfold review_tools._parse_time_range at h ⊢
  split_ifs at h ⊢ <;>
    first
      | exact ⟨_, rfl⟩
      | (cases hp : pyInt? (pyDropLast tr) with
          | none => rw [hp] at h; simp at h
          | some v => exact ⟨_, rfl⟩)

theorem googleLoop_ok (env : review_tools.GoogleEnv) (tr : String)
    (hdet : ∀ pid, ∃ d, env.placeDetails pid = .ok d)
    (hparse : ∃ c, review_tools._parse_time_range tr env.now = .ok c) :
    ∀ ps, ∃ l, review_tools.googleLoop env tr ps = .ok l := by
  intro ps
  induction ps with
  | nil => exact ⟨[], rfl⟩
  | cons p t ih =>
      obtain ⟨l, hl⟩ := ih
      unfold review_tools.googleLoop
      cases hid : p.place_id with
      | none => exact ⟨l, hl⟩
      | some pid =>
          dsimp only
          by_cases hpe : pid.data.isEmpty = true
          · rw [if_pos hpe]
            exact ⟨l, hl⟩
          · rw [if_neg hpe]
            obtain ⟨d, hd⟩ := hdet pid
            obtain ⟨c, hc⟩ := hparse
            rw [hd, hc, hl]
            exact ⟨_, rfl⟩

/-- C2 (amended): `fetch_yelp_reviews` converts every fault of its
external calls into a structured `{"error": ...}` record inside the
returned list (its whole body sits in `try/except`, so its embedding has a
non-raising type); `fetch_google_reviews` returns a list whenever its
search call and detail calls do not fault and the time range parses —
but, per the counterexample, its faults propagate uncaught. -/
theorem C2_tool_fault_handling :
    (∀ (env : review_tools.YelpEnv) (loc bt tr e : String),
        pyTruthy env.apiKey = true → env.search = .error e →
        review_tools.fetch_yelp_reviews env loc bt tr =
          [.errRec ("Yelp API error: " ++ e)]) ∧
    (∀ (env : review_tools.GoogleEnv) (loc bt tr : String),
        (∃ ps, env.places = .ok ps) →
        (∀ pid, ∃ d, env.placeDetails pid = .ok d) →
        review_tools.goodTimeRange tr = true →
        ∃ l, review_tools.fetch_google_reviews env loc bt tr = .ok l) := by
  constructor
  · intro env loc bt tr e hkey hsearch
    unfold review_tools.fetch_yelp_reviews
    rw [hkey]
    simp only [Bool.not_true, Bool.false_eq_true, if_false, hsearch]
    rfl
  · intro env loc bt tr hplaces hdet hgood
    obtain ⟨ps, hps⟩ := hplaces
    unfold review_tools.fetch_google_reviews
    cases hkey : pyTruthy env.apiKey with
    | false => exact ⟨_, rfl⟩
    | true =>
        simp only [Bool.not_true, Bool.false_eq_true, if_false, hps]
        exact googleLoop_ok env tr hdet (goodTimeRange_ok tr env.now hgood) (ps.take 10)

/-- Witness for `C2_tool_fault_handling`: a Yelp environment whose search
call fails with a timeout, and a Google environment whose calls all
succeed. -/
theorem C2_tool_fault_handling_witness :
    (pyTruthy (some "k") = true ∧
      review_tools.fetch_yelp_reviews ⟨some "k", .error "timeout", fun _ => .ok ⟨none, none, none⟩, 0⟩
        "San Jose" "boba tea" "30d" = [.errRec ("Yelp API error: " ++ "timeout")]) ∧
    (review_tools.goodTimeRange "30d" = true ∧
      ∃ l, review_tools.fetch_google_reviews
        ⟨some "k", .ok [⟨some "p1"⟩], fun _ => .ok ⟨some "Cafe", some 4, some 12, []⟩, 0⟩
        "San Jose" "boba tea" "30d" = .ok l) := by
  refine ⟨⟨by decide, ?_⟩, ⟨?_, ?_⟩⟩
  · exact C2_tool_fault_handling.1
      ⟨some "k", .error "timeout", fun _ => .ok ⟨none, none, none⟩, 0⟩
      "San Jose" "boba tea" "30d" "timeout" (by decide) rfl
  · simp [review_tools.goodTimeRange, review_tools._parse_time_range, pyEndsWith, pyDropLast,
      pyInt?, digitsToNat?, List.isSuffixOf, List.isPrefixOf]
  · exact C2_tool_fault_handling.2
      ⟨some "k", .ok [⟨some "p1"⟩], fun _ => .ok ⟨some "Cafe", some 4, some 12, []⟩, 0⟩
      "San Jose" "boba tea" "30d" ⟨_, rfl⟩ (fun _ => ⟨_, rfl⟩)
      (by simp [review_tools.goodTimeRange, review_tools._parse_time_range, pyEndsWith,
        pyDropLast, pyInt?, digitsToNat?, List.isSuffixOf, List.isPrefixOf])

/-- C2 counterexample: with the API key set, a network fault in the
`gmaps.places` search call propagates out of `fetch_google_reviews` as an
uncaught exception — the function does not return a list. -/
theorem C2_counterexample :
    review_tools.fetch_google_reviews
      ⟨some "k", .error "requests.exceptions.ConnectionError",
        fun _ => .ok ⟨none, none, none, []⟩, 0⟩
      "San Jose" "boba tea" "30d" = .error "requests.exceptions.ConnectionError" := by
  unfold review_tools.fetch_google_reviews
  simp [pyTruthy]

/-! ## Claim C4 -/

theorem pyRound2_nonneg (x : ℚ) (h : 0 ≤ x) : 0 ≤ pyRound2 x := by
  simp only [pyRound2]
  have hf : (0 : ℤ) ≤ ⌊x * 100⌋ := Int.floor_nonneg.mpr (by positivity)
  have hgoal : ∀ n : ℤ, 0 ≤ n → 0 ≤ (n : ℚ) / 100 := fun n hn =>
    div_nonneg (by exact_mod_cast hn) (by norm_num)
  split_ifs <;> apply hgoal <;> omega

theorem pyRound2_le_100 (x : ℚ) (h : x ≤ 100) : pyRound2 x ≤ 100 := by
  simp only [pyRound2]
  have h1 : x * 100 ≤ 10000 := by linarith
  have hf : ⌊x * 100⌋ ≤ 10000 := by
    have h2 : ⌊x * 100⌋ ≤ ⌊(10000 : ℚ)⌋ := Int.floor_le_floor h1
    simpa using h2
  have hgoal : ∀ n : ℤ, n ≤ 10000 → (n : ℚ) / 100 ≤ 100 := by
    intro n hn
    rw [div_le_iff (by norm_num : (0:ℚ) < 100)]
    calc (n : ℚ) ≤ 10000 := by exact_mod_cast hn
    _ = 100 * 100 := by norm_num
  split_ifs with h2 h3 h4
  · exact hgoal _ hf
  · apply hgoal
    have hr : (1:ℚ)/2 ≤ x * 100 - (⌊x * 100⌋ : ℚ) := le_of_lt h3
    have hq : (⌊x * 100⌋ : ℚ) < 10000 := by linarith
    have hz : ⌊x * 100⌋ < 10000 := by exact_mod_cast hq
    omega
  · exact hgoal _ hf
  · apply hgoal
    have hr : (1:ℚ)/2 ≤ x * 100 - (⌊x * 100⌋ : ℚ) := not_lt.mp h2
    have hq : (⌊x * 100⌋ : ℚ) < 10000 := by linarith
    have hz : ⌊x * 100⌋ < 10000 := by exact_mod_cast hq
    omega

theorem scoreBand_spec (s : ℚ) :
    (scoreBand s = "HIGH" ↔ 70 ≤ s) ∧
    (scoreBand s = "MODERATE" ↔ 40 ≤ s ∧ s < 70) ∧
    (scoreBand s = "LOW" ↔ s < 40) := by
  unfold scoreBand
  split_ifs with h1 h2
  · exact ⟨iff_of_true rfl h1,
      iff_of_false (by decide) (fun hc => absurd h1 (not_le.mpr hc.2)),
      iff_of_false (by decide) (fun hc => absurd h1 (not_le.mpr (by linarith)))⟩
  · exact ⟨iff_of_false (by decide) (fun hc => h1 hc),
      iff_of_true rfl ⟨h2, not_le.mp h1⟩,
      iff_of_false (by decide) (fun hc => absurd h2 (not_le.mpr hc))⟩
  · exact ⟨iff_of_false (by decide) (fun hc => h1 hc),
      iff_of_false (by decide) (fun hc => h2 hc.1),
      iff_of_true rfl (not_le.mp h2)⟩

theorem parseCensusValue_nonneg (k : String) (fb : ℤ) (hfb : 0 ≤ fb) :
    ∀ d : List (String × String), demographics.censusNonneg d = true →
      0 ≤ demographics.parseCensusValue (demographics.censusGet d k) fb := by
  intro d
  induction d with
  | nil =>
      intro _
      simp [demographics.censusGet, List.lookup, demographics.parseCensusValue, pyInt?,
        digitsToNat?]
  | cons kv t ih =>
      intro hd
      obtain ⟨k2, v⟩ := kv
      simp only [demographics.censusNonneg, List.all_cons, Bool.and_eq_true] at hd
      obtain ⟨h1, h2⟩ := hd
      unfold demographics.censusGet
      by_cases hk : (k == k2) = true
      · rw [List.lookup, hk]
        simp only [Option.getD_some]
        unfold demographics.parseCensusValue
        split_ifs
        · norm_num
        · cases hp : pyInt? v with
          | none => simpa [hp] using hfb
          | some n =>
              rw [hp] at h1
              simpa using h1
      · rw [List.lookup]
        simp only [Bool.not_eq_true] at hk
        rw [hk]
        exact ih h2

theorem age1834Count_nonneg (d : List (String × String))
    (hd : demographics.censusNonneg d = true) : 0 ≤ demographics.age1834Count d := by
  unfold demographics.age1834Count
  apply List.sum_nonneg
  intro x hx
  simp only [List.mem_map] at hx
  obtain ⟨v, _, rfl⟩ := hx
  exact parseCensusValue_nonneg v 0 le_rfl d hd

theorem discretionaryCount_nonneg (d : List (String × String))
    (hd : demographics.censusNonneg d = true) : 0 ≤ demographics.discretionaryCount d := by
  unfold demographics.discretionaryCount
  apply List.sum_nonneg
  intro x hx
  simp only [List.mem_map] at hx
  obtain ⟨v, _, rfl⟩ := hx
  exact parseCensusValue_nonneg v 0 le_rfl d hd

theorem ratioPct_nonneg (num den : ℤ) (hnum : 0 ≤ num) :
    0 ≤ (if 0 < den then (num : ℚ) / (den : ℚ) * 100 else 0) := by
  split_ifs with h
  · have hd : (0:ℚ) < (den : ℚ) := by exact_mod_cast h
    apply mul_nonneg (div_nonneg (by exact_mod_cast hnum) hd.le) (by norm_num)
  · exact le_refl 0

theorem age1834Pct_nonneg (d : List (String × String))
    (hd : demographics.censusNonneg d = true) : 0 ≤ demographics.age1834Pct d := by
  unfold demographics.age1834Pct
  exact ratioPct_nonneg _ _ (age1834Count_nonneg d hd)

theorem discretionaryPct_nonneg (d : List (String × String))
    (hd : demographics.censusNonneg d = true) : 0 ≤ demographics.discretionaryPct d := by
  unfold demographics.discretionaryPct
  exact ratioPct_nonneg _ _ (discretionaryCount_nonneg d hd)

theorem asianPct_nonneg (d : List (String × String))
    (hd : demographics.censusNonneg d = true) : 0 ≤ demographics.asianPct d := by
  unfold demographics.asianPct
  exact ratioPct_nonneg _ _ (parseCensusValue_nonneg _ 0 le_rfl d hd)

theorem hispanicPct_nonneg (d : List (String × String))
    (hd : demographics.censusNonneg d = true) : 0 ≤ demographics.hispanicPct d := by
  unfold demographics.hispanicPct
  exact ratioPct_nonneg _ _ (parseCensusValue_nonneg _ 0 le_rfl d hd)

theorem minScore_bounds (p w c : ℚ) (hp : 0 ≤ p) (hw : 0 ≤ w) (hc : 0 < c) :
    0 ≤ min (p / c) 1 * w ∧ min (p / c) 1 * w ≤ w := by
  constructor
  · exact mul_nonneg (le_min (div_nonneg hp hc.le) zero_le_one) hw
  · calc min (p / c) 1 * w ≤ 1 * w := mul_le_mul_of_nonneg_right (min_le_right _ _) hw
    _ = w := one_mul w

theorem ageIncomeScore_bounds (d : List (String × String))
    (hd : demographics.censusNonneg d = true) :
    0 ≤ demographics.ageIncomeScore d ∧ demographics.ageIncomeScore d ≤ 100 := by
  unfold demographics.ageIncomeScore
  have b1 := minScore_bounds (demographics.age1834Pct d) 50 25
    (age1834Pct_nonneg d hd) (by norm_num) (by norm_num)
  have b2 := minScore_bounds (demographics.discretionaryPct d) 50 40
    (discretionaryPct_nonneg d hd) (by norm_num) (by norm_num)
  constructor <;> linarith [b1.1, b1.2, b2.1, b2.2]

theorem culturalScore_bounds (d : List (String × String))
    (hd : demographics.censusNonneg d = true) :
    0 ≤ demographics.culturalScore d ∧ demographics.culturalScore d ≤ 100 := by
  unfold demographics.culturalScore
  have b1 := minScore_bounds (demographics.asianPct d) 70 15
    (asianPct_nonneg d hd) (by norm_num) (by norm_num)
  have b2 := minScore_bounds (demographics.hispanicPct d) 30 30
    (hispanicPct_nonneg d hd) (by norm_num) (by norm_num)
  constructor <;> linarith [b1.1, b1.2, b2.1, b2.2]

theorem localGuidePct_bounds (reviews : List voice.Review) :
    0 ≤ voice.localGuidePct reviews ∧ voice.localGuidePct reviews ≤ 100 := by
  unfold voice.localGuidePct
  split_ifs with h
  · have hc : (voice.localGuideCount reviews : ℚ) ≤ (reviews.length : ℚ) := by
      exact_mod_cast List.length_filter_le _ _
    have hl : (0:ℚ) < (reviews.length : ℚ) := by exact_mod_cast h
    constructor
    · exact mul_nonneg (div_nonneg (Nat.cast_nonneg _) hl.le) (by norm_num)
    · have hone : (voice.localGuideCount reviews : ℚ) / (reviews.length : ℚ) ≤ 1 :=
        (div_le_one hl).mpr hc
      calc (voice.localGuideCount reviews : ℚ) / (reviews.length : ℚ) * 100
          ≤ 1 * 100 := mul_le_mul_of_nonneg_right hone (by norm_num)
      _ = 100 := one_mul 100
  · constructor <;> norm_num

theorem repeatCustomerFrac_bounds (reviews : List voice.Review) :
    0 ≤ voice.repeatCustomerFrac reviews ∧ voice.repeatCustomerFrac reviews ≤ 1 := by
  unfold voice.repeatCustomerFrac
  split_ifs with h
  · have hl : (0:ℚ) < (reviews.length : ℚ) := by exact_mod_cast h
    have hs : ((reviews.length - (reviews.map fun r => r.author).dedup.length : ℕ) : ℚ) ≤
        (reviews.length : ℚ) := by
      exact_mod_cast Nat.sub_le _ _
    constructor
    · exact div_nonneg (Nat.cast_nonneg _) hl.le
    · exact (div_le_one hl).mpr hs
  · constructor <;> norm_num

theorem loyaltyScore_bounds (reviews : List voice.Review) :
    0 ≤ voice.loyaltyScore reviews ∧ voice.loyaltyScore reviews ≤ 100 := by
  unfold voice.loyaltyScore
  have b1 := localGuidePct_bounds reviews
  have b2 := repeatCustomerFrac_bounds reviews
  constructor <;> nlinarith [b1.1, b1.2, b2.1, b2.2]

/-- C4 (amended): when every parseable value in the census record is a
non-negative count, `_analyze_age_income` and
`_analyze_ethnicity_cultural_alignment` return a (rounded) score bounded
in `[0, 100]` whose `score_interpretation` band is HIGH exactly on
pre-rounding score ≥ 70, MODERATE exactly on 40 ≤ score < 70 and LOW
otherwise; `calculate_brand_loyalty_score` returns, for every review
list, a (rounded) score in `[0, 100]` — but no LOW/MODERATE/HIGH band:
its qualitative output is `supports_regulars_model`, true exactly when
the local-guide percentage is at least 30.  (Without the non-negativity
hypothesis the census scores escape `[0, 100]`, see the
counterexample.) -/
theorem C4_scoring_bounds (d : List (String × String)) (reviews : List voice.Review)
    (hd : demographics.censusNonneg d = true) :
    (0 ≤ (demographics._analyze_age_income d).age_income_score ∧
      (demographics._analyze_age_income d).age_income_score ≤ 100 ∧
      ((demographics._analyze_age_income d).score_interpretation = "HIGH" ↔
        70 ≤ demographics.ageIncomeScore d) ∧
      ((demographics._analyze_age_income d).score_interpretation = "MODERATE" ↔
        40 ≤ demographics.ageIncomeScore d ∧ demographics.ageIncomeScore d < 70) ∧
      ((demographics._analyze_age_income d).score_interpretation = "LOW" ↔
        demographics.ageIncomeScore d < 40)) ∧
    (0 ≤ (demographics._analyze_ethnicity_cultural_alignment d).cultural_alignment_score ∧
      (demographics._analyze_ethnicity_cultural_alignment d).cultural_alignment_score ≤ 100 ∧
      ((demographics._analyze_ethnicity_cultural_alignment d).score_interpretation = "HIGH" ↔
        70 ≤ demographics.culturalScore d) ∧
      ((demographics._analyze_ethnicity_cultural_alignment d).score_interpretation = "MODERATE" ↔
        40 ≤ demographics.culturalScore d ∧ demographics.culturalScore d < 70) ∧
      ((demographics._analyze_ethnicity_cultural_alignment d).score_interpretation = "LOW" ↔
        demographics.culturalScore d < 40)) ∧
    (0 ≤ (voice.calculate_brand_loyalty_score reviews).score ∧
      (voice.calculate_brand_loyalty_score reviews).score ≤ 100 ∧
      ((voice.calculate_brand_loyalty_score reviews).supports_regulars_model = true ↔
        30 ≤ voice.localGuidePct reviews)) := by
  have hai := ageIncomeScore_bounds d hd
  have hcs := culturalScore_bounds d hd
  have hls := loyaltyScore_bounds reviews
  have hb1 := scoreBand_spec (demographics.ageIncomeScore d)
  have hb2 := scoreBand_spec (demographics.culturalScore d)
  refine ⟨⟨?_, ?_, hb1.1, hb1.2.1, hb1.2.2⟩, ⟨?_, ?_, hb2.1, hb2.2.1, hb2.2.2⟩,
    ?_, ?_, ?_⟩
  · exact pyRound2_nonneg _ hai.1
  · exact pyRound2_le_100 _ hai.2
  · exact pyRound2_nonneg _ hcs.1
  · exact pyRound2_le_100 _ hcs.2
  · exact pyRound2_nonneg _ hls.1
  · exact pyRound2_le_100 _ hls.2
  · exact decide_eq_true_iff

/-- Witness for `C4_scoring_bounds` on a small well-formed census record
and one review. -/
theorem C4_scoring_bounds_witness :
    demographics.censusNonneg [("B01001_001E", "100"), ("B01001_007E", "10")] = true ∧
    (0 ≤ (demographics._analyze_age_income
        [("B01001_001E", "100"), ("B01001_007E", "10")]).age_income_score ∧
      (demographics._analyze_age_income
        [("B01001_001E", "100"), ("B01001_007E", "10")]).age_income_score ≤ 100) ∧
    (0 ≤ (voice.calculate_brand_loyalty_score
        [⟨"great boba", "amy", 5, none, true⟩]).score ∧
      (voice.calculate_brand_loyalty_score [⟨"great boba", "amy", 5, none, true⟩]).score ≤ 100) := by
  have h := C4_scoring_bounds [("B01001_001E", "100"), ("B01001_007E", "10")]
    [⟨"great boba", "amy", 5, none, true⟩] (by decide)
  exact ⟨by decide, ⟨h.1.1, h.1.2.1⟩, ⟨h.2.2.1, h.2.2.2.1⟩⟩

/-- C4 counterexample: a census record carrying a negative count string
drives the age/income score to `-20000`, far outside `[0, 100]` — the
functions never clamp against malformed upstream data. -/
theorem C4_counterexample :
    (demographics._analyze_age_income
      [("B01001_007E", "-100"), ("B01001_001E", "1")]).age_income_score = -20000 ∧
    ¬ (0 ≤ (-20000 : ℚ)) := by
  constructor
  · show pyRound2 (demographics.ageIncomeScore _) = -20000
    have hs : demographics.ageIncomeScore [("B01001_007E", "-100"), ("B01001_001E", "1")]
        = -20000 := by
      simp [demographics.ageIncomeScore, demographics.age1834Pct, demographics.discretionaryPct,
        demographics.age1834Count, demographics.discretionaryCount,
        demographics.totalPopulation, demographics.totalHouseholds,
        demographics.ageVariables, demographics.incomeVariables,
        demographics.censusGet, demographics.parseCensusValue, List.lookup,
        pyInt?, digitsToNat?]
      norm_num
    rw [hs]
    have : ((-2000000 : ℤ) : ℚ) / 100 = -20000 := by norm_num
    simp only [pyRound2]
    norm_num
  · norm_num

/-! ## Claim C10 -/

theorem filter_three_way (p q : voice.Review → Prop) [DecidablePred p] [DecidablePred q]
    (l : List voice.Review) :
    (l.filter fun r => decide (p r)).length +
    (l.filter fun r => decide (¬ p r) && decide (q r)).length +
    (l.filter fun r => decide (¬ p r) && decide (¬ q r)).length = l.length := by
  induction l with
  | nil => rfl
  | cons a t ih =>
      by_cases hp : p a <;> by_cases hq : q a <;>
        simp [List.filter_cons, hp, hq, decide_not] at ih ⊢ <;> omega

/-- C10: `cluster_reviews_by_sentiment` always returns exactly the four
categories Wait Time, Sweetness Levels, Pearl Texture and Staff
Friendliness (in that order), and each category's positive, negative and
neutral counts are tallied over only the first five reviews matched to
that category — their sum equals `min 5 (#matching reviews)` and so never
exceeds 5. -/
theorem C10_cluster_categories (reviews : List voice.Review) :
    ((voice.cluster_reviews_by_sentiment reviews).map Prod.fst =
      ["Wait Time", "Sweetness Levels", "Pearl Texture", "Staff Friendliness"]) ∧
    ∀ p ∈ voice.cluster_reviews_by_sentiment reviews,
      p.2.positive_count + p.2.negative_count + p.2.neutral_count =
        min 5 (voice.categoryReviews p.1 reviews).length ∧
      p.2.positive_count + p.2.negative_count + p.2.neutral_count ≤ 5 := by
  constructor
  · simp [voice.cluster_reviews_by_sentiment, voice.categoryNames]
  · intro p hp
    simp only [voice.cluster_reviews_by_sentiment, List.mem_map] at hp
    obtain ⟨c, _, rfl⟩ := hp
    have hsum : (voice.sentimentCluster c reviews).positive_count +
        (voice.sentimentCluster c reviews).negative_count +
        (voice.sentimentCluster c reviews).neutral_count =
        min 5 (voice.categoryReviews c reviews).length := by
      simp only [voice.sentimentCluster]
      rw [filter_three_way (fun r => 4 ≤ r.rating) (fun r => r.rating ≤ 2)]
      exact List.length_take 5 (voice.categoryReviews c reviews)
    exact ⟨hsum, by rw [hsum]; exact min_le_left _ _⟩

/-- Witness for `C10_cluster_categories`: the Wait Time cluster of a
single slow-service review. -/
theorem C10_cluster_categories_witness :
    ("Wait Time", voice.sentimentCluster "Wait Time"
        [⟨"the wait was slow", "amy", 5, none, false⟩]) ∈
      voice.cluster_reviews_by_sentiment [⟨"the wait was slow", "amy", 5, none, false⟩] ∧
    (("Wait Time", voice.sentimentCluster "Wait Time"
        [⟨"the wait was slow", "amy", 5, none, false⟩]) :
          String × voice.SentimentCluster).2.positive_count +
      (("Wait Time", voice.sentimentCluster "Wait Time"
        [⟨"the wait was slow", "amy", 5, none, false⟩]) :
          String × voice.SentimentCluster).2.negative_count +
      (("Wait Time", voice.sentimentCluster "Wait Time"
        [⟨"the wait was slow", "amy", 5, none, false⟩]) :
          String × voice.SentimentCluster).2.neutral_count ≤ 5 :=
  ⟨by decide,
    ((C10_cluster_categories [⟨"the wait was slow", "amy", 5, none, false⟩]).2
      ("Wait Time", voice.sentimentCluster "Wait Time"
        [⟨"the wait was slow", "amy", 5, none, false⟩]) (by decide)).2⟩

/-! ## Claims C1, C5, C6, C7 — the spec-modelled orchestration engine -/

theorem build_ok_inv (defs r : List swarm.AgentDef) (h : swarm.build defs = .ok r) :
    r = defs ∧ (swarm.registryNames defs).Nodup ∧
      (defs.all fun a => a.handoffTargets.all fun t =>
        (swarm.registryNames defs).contains t) = true := by
  unfold swarm.build at h
  split_ifs at h with h1 h2
  exact ⟨(Except.ok.inj h).symm, h1, h2⟩

/-- C5 (spec-modelled): registry build fails with `DuplicateAgentName`
when two definitions share a name, fails with `DanglingHandoffTarget`
when (names being distinct) some definition declares a handoff target
absent from the definition set, and any successfully built registry
contains no dangling handoff target. -/
theorem C5_registry_build (defs : List swarm.AgentDef) :
    (¬ (swarm.registryNames defs).Nodup →
      swarm.build defs = .error .DuplicateAgentName) ∧
    ((swarm.registryNames defs).Nodup →
      (∃ a ∈ defs, ∃ t ∈ a.handoffTargets, t ∉ swarm.registryNames defs) →
      swarm.build defs = .error .DanglingHandoffTarget) ∧
    (∀ r, swarm.build defs = .ok r →
      ∀ a ∈ r, ∀ t ∈ a.handoffTargets, t ∈ swarm.registryNames r) := by
  refine ⟨fun h1 => ?_, fun h1 h2 => ?_, fun r hr a ha t ht => ?_⟩
  · unfold swarm.build
    rw [if_pos h1]
  · have hcond : ¬ ((defs.all fun a => a.handoffTargets.all fun t =>
        (swarm.registryNames defs).contains t) = true) := by
      intro hall
      obtain ⟨a, ha, t, ht, hnt⟩ := h2
      rw [List.all_eq_true] at hall
      have h3 := hall a ha
      rw [List.all_eq_true] at h3
      have h4 := h3 t ht
      exact hnt (by simpa using h4)
    unfold swarm.build
    rw [if_neg (not_not_intro h1), if_pos hcond]
  · obtain ⟨rfl, _, hall⟩ := build_ok_inv defs r hr
    rw [List.all_eq_true] at hall
    have h3 := hall a ha
    rw [List.all_eq_true] at h3
    simpa using h3 t ht

/-- Witness for `C5_registry_build`: a duplicated pair, a definition with
a dangling target, and a well-formed one-agent registry. -/
theorem C5_registry_build_witness :
    (¬ (swarm.registryNames [⟨"A", []⟩, ⟨"A", []⟩]).Nodup ∧
      swarm.build [⟨"A", []⟩, ⟨"A", []⟩] = .error .DuplicateAgentName) ∧
    ((swarm.registryNames [⟨"A", ["B"]⟩]).Nodup ∧
      swarm.build [⟨"A", ["B"]⟩] = .error .DanglingHandoffTarget) ∧
    (swarm.build [⟨"A", ["A"]⟩] = .ok [⟨"A", ["A"]⟩] ∧
      ∀ a ∈ ([⟨"A", ["A"]⟩] : List swarm.AgentDef), ∀ t ∈ a.handoffTargets,
        t ∈ swarm.registryNames [⟨"A", ["A"]⟩]) := by
  refine ⟨⟨by decide, ?_⟩, ⟨by decide, ?_⟩, ⟨by rfl, ?_⟩⟩
  · exact (C5_registry_build [⟨"A", []⟩, ⟨"A", []⟩]).1 (by decide)
  · exact (C5_registry_build [⟨"A", ["B"]⟩]).2.1 (by decide)
      ⟨⟨"A", ["B"]⟩, by decide, "B", by decide, by decide⟩
  · exact (C5_registry_build [⟨"A", ["A"]⟩]).2.2 [⟨"A", ["A"]⟩] (by rfl)

theorem route_ok_inv (reg : List swarm.AgentDef) (maxHops K : ℕ) (s : swarm.Session)
    (target : String) (s2 : swarm.Session)
    (h : swarm.route reg maxHops K s target = .ok s2) :
    s2 = ⟨target, s.hops + 1, target :: s.hopTrail⟩ ∧ s.hops + 1 ≤ maxHops ∧
      target ∈ swarm.registryNames reg := by
  unfold swarm.route at h
  split_ifs at h with h1 h2 h3
  exact ⟨(Except.ok.inj h).symm, by omega, h1⟩

theorem route_cycle_budget (reg : List swarm.AgentDef) (maxHops K : ℕ) (s : swarm.Session)
    (target : String)
    (h : swarm.route reg maxHops K s target = .error .HandoffCycleDetected) :
    s.hops + 1 ≤ maxHops := by
  unfold swarm.route at h
  split_ifs at h with h1 h2 h3 <;> first | omega | simp at h

theorem runLoop_hops_le (reg : List swarm.AgentDef) (oracle : String → ℕ → swarm.OracleStep)
    (maxHops K : ℕ) :
    ∀ (fuel : ℕ) (s : swarm.Session), s.hops ≤ maxHops →
      (swarm.runLoop reg oracle maxHops K fuel s).hopsUsed ≤ maxHops := by
  intro fuel
  induction fuel with
  | zero => intro s hs; exact hs
  | succ n ih =>
      intro s hs
      unfold swarm.runLoop
      cases oracle s.activeAgent s.hops with
      | respond text => exact hs
      | handoff target =>
          dsimp only
          cases hr : swarm.route reg maxHops K s target with
          | ok s2 =>
              obtain ⟨hs2, hb, _⟩ := route_ok_inv _ _ _ _ _ _ hr
              exact ih s2 (by rw [hs2]; exact hb)
          | error e =>
              cases e with
              | UnknownHandoffTarget => exact hs
              | HopBudgetExceeded => exact hs
              | HandoffCycleDetected => exact route_cycle_budget _ _ _ _ _ hr

/-- C6 (spec-modelled): for every single-message run the reported number
of executed handoffs never exceeds the configured budget, and whenever
the hop counter after increment would exceed the budget, routing (of a
known target) fails with `HopBudgetExceeded`. -/
theorem C6_hop_budget (reg : List swarm.AgentDef) (oracle : String → ℕ → swarm.OracleStep)
    (maxHops K : ℕ) (s : swarm.Session) :
    (swarm.processMessage reg oracle maxHops K s).hopsUsed ≤ maxHops ∧
    (∀ (s2 : swarm.Session) (target : String),
      target ∈ swarm.registryNames reg → maxHops < s2.hops + 1 →
      swarm.route reg maxHops K s2 target = .error .HopBudgetExceeded) := by
  constructor
  · exact runLoop_hops_le reg oracle maxHops K (maxHops + 1) _ (Nat.zero_le _)
  · intro s2 target hmem hlt
    unfold swarm.route
    rw [if_neg (not_not_intro hmem), if_pos hlt]

/-- Witness for `C6_hop_budget` on the agent set of `src/main.py` with a
budget of 5 hops. -/
theorem C6_hop_budget_witness :
    (swarm.processMessage main.agentDefs (fun _ _ => .respond "done") 5 4
      ⟨"Alice", 0, []⟩).hopsUsed ≤ 5 ∧
    ("Bob" ∈ swarm.registryNames main.agentDefs ∧ 5 < 5 + 1 ∧
      swarm.route main.agentDefs 5 4 ⟨"Alice", 5, []⟩ "Bob" =
        .error .HopBudgetExceeded) :=
  ⟨(C6_hop_budget main.agentDefs (fun _ _ => .respond "done") 5 4 ⟨"Alice", 0, []⟩).1,
    by decide, by decide,
    (C6_hop_budget main.agentDefs (fun _ _ => .respond "done") 5 4 ⟨"Alice", 0, []⟩).2
      ⟨"Alice", 5, []⟩ "Bob" (by decide) (by decide)⟩

theorem runLoop_active_mem (reg : List swarm.AgentDef) (oracle : String → ℕ → swarm.OracleStep)
    (maxHops K : ℕ) :
    ∀ (fuel : ℕ) (s : swarm.Session), s.activeAgent ∈ swarm.registryNames reg →
      (swarm.runLoop reg oracle maxHops K fuel s).session.activeAgent ∈
        swarm.registryNames reg := by
  intro fuel
  induction fuel with
  | zero => intro s hs; exact hs
  | succ n ih =>
      intro s hs
      unfold swarm.runLoop
      cases oracle s.activeAgent s.hops with
      | respond text => exact hs
      | handoff target =>
          dsimp only
          cases hr : swarm.route reg maxHops K s target with
          | ok s2 =>
              obtain ⟨hs2, _, hmem⟩ := route_ok_inv _ _ _ _ _ _ hr
              exact ih s2 (by rw [hs2]; exact hmem)
          | error e =>
              cases e with
              | UnknownHandoffTarget => exact hs
              | HopBudgetExceeded => exact hs
              | HandoffCycleDetected => exact hs

/-- C1 (spec-modelled): the router only ever installs registry members as
the active agent, so every session reachable from a session whose active
agent is registered — including across any number of executed handoffs —
still has its active agent in the registry. -/
theorem C1_active_agent_invariant (reg : List swarm.AgentDef)
    (oracle : String → ℕ → swarm.OracleStep) (maxHops K : ℕ) :
    (∀ (s : swarm.Session) (target : String) (s2 : swarm.Session),
      swarm.route reg maxHops K s target = .ok s2 →
      s2.activeAgent ∈ swarm.registryNames reg) ∧
    (∀ s : swarm.Session, s.activeAgent ∈ swarm.registryNames reg →
      (swarm.processMessage reg oracle maxHops K s).session.activeAgent ∈
        swarm.registryNames reg) := by
  constructor
  · intro s target s2 h
    obtain ⟨hs2, _, hmem⟩ := route_ok_inv _ _ _ _ _ _ h
    rw [hs2]
    exact hmem
  · intro s hs
    exact runLoop_active_mem reg oracle maxHops K (maxHops + 1) _ hs

/-- Witness for `C1_active_agent_invariant` on the agent set of
`src/main.py`, starting from the default active agent `"Alice"`. -/
theorem C1_active_agent_invariant_witness :
    (swarm.route main.agentDefs 10 4 ⟨"Alice", 0, []⟩ "Bob" = .ok ⟨"Bob", 1, ["Bob"]⟩ ∧
      (⟨"Bob", 1, ["Bob"]⟩ : swarm.Session).activeAgent ∈
        swarm.registryNames main.agentDefs) ∧
    ((⟨"Alice", 0, []⟩ : swarm.Session).activeAgent ∈ swarm.registryNames main.agentDefs ∧
      (swarm.processMessage main.agentDefs (swarm.pingPongOracle "Alice" "Bob") 10 4
        ⟨"Alice", 0, []⟩).session.activeAgent ∈ swarm.registryNames main.agentDefs) :=
  ⟨⟨by rfl,
    (C1_active_agent_invariant main.agentDefs (swarm.pingPongOracle "Alice" "Bob") 10 4).1
      ⟨"Alice", 0, []⟩ "Bob" ⟨"Bob", 1, ["Bob"]⟩ (by rfl)⟩,
   ⟨by decide,
    (C1_active_agent_invariant main.agentDefs (swarm.pingPongOracle "Alice" "Bob") 10 4).2
      ⟨"Alice", 0, []⟩ (by decide)⟩⟩

theorem runLoop_step_ok (reg : List swarm.AgentDef) (oracle : String → ℕ → swarm.OracleStep)
    (maxHops K fuel : ℕ) (s : swarm.Session) (target : String) (s2 : swarm.Session)
    (hor : oracle s.activeAgent s.hops = .handoff target)
    (hro : swarm.route reg maxHops K s target = .ok s2) :
    swarm.runLoop reg oracle maxHops K (fuel + 1) s =
      swarm.runLoop reg oracle maxHops K fuel s2 := by
  simp only [swarm.runLoop, hor, hro]

theorem runLoop_step_cycle (reg : List swarm.AgentDef) (oracle : String → ℕ → swarm.OracleStep)
    (maxHops K fuel : ℕ) (s : swarm.Session) (target : String)
    (hor : oracle s.activeAgent s.hops = .handoff target)
    (hro : swarm.route reg maxHops K s target = .error .HandoffCycleDetected) :
    swarm.runLoop reg oracle maxHops K (fuel + 1) s =
      ⟨none, .cycleDetected, s.hops + 1, s⟩ := by
  simp only [swarm.runLoop, hor, hro]

theorem oscillates_one (x : String) : swarm.oscillates [x] 4 = false := rfl

theorem oscillates_two (x y : String) : swarm.oscillates [x, y] 4 = false := rfl

theorem oscillates_three (x y z : String) : swarm.oscillates [x, y, z] 4 = false := rfl

theorem oscillates_abab (a b : String) (h : (a == b) = false) :
    swarm.oscillates [a, b, a, b] 4 = true := by
  simp [swarm.oscillates, swarm.altPattern, h, bne]

theorem route_step_ok (reg : List swarm.AgentDef) (maxHops K : ℕ) (s : swarm.Session)
    (target : String) (hmem : target ∈ swarm.registryNames reg)
    (hbud : s.hops + 1 ≤ maxHops)
    (hosc : swarm.oscillates (target :: s.hopTrail) K = false) :
    swarm.route reg maxHops K s target = .ok ⟨target, s.hops + 1, target :: s.hopTrail⟩ := by
  unfold swarm.route
  rw [if_neg (not_not_intro hmem), if_neg (by omega), if_neg (by simp [hosc])]

/-- C7 (spec-modelled): with the default cycle window `K = 4` and a hop
budget larger than 4, an oracle that oscillates for ever between two
distinct registered agents A and B is stopped by the cycle detector at
the 4th hop: the run ends with `HandoffCycleDetected` and the reported
`hopsUsed` is 4, strictly below `maxHopsPerMessage`. -/
theorem C7_cycle_detection (reg : List swarm.AgentDef) (a b : String) (maxHops : ℕ)
    (ha : a ∈ swarm.registryNames reg) (hb : b ∈ swarm.registryNames reg)
    (hab : a ≠ b) (hm : 4 < maxHops) :
    (swarm.processMessage reg (swarm.pingPongOracle a b) maxHops 4 ⟨a, 0, []⟩).status =
      .cycleDetected ∧
    (swarm.processMessage reg (swarm.pingPongOracle a b) maxHops 4 ⟨a, 0, []⟩).hopsUsed = 4 ∧
    (swarm.processMessage reg (swarm.pingPongOracle a b) maxHops 4 ⟨a, 0, []⟩).hopsUsed <
      maxHops := by
  have haa : (a == a) = true := beq_self_eq_true a
  have hab2 : (a == b) = false := beq_eq_false_iff_ne.mpr hab
  have hba2 : (b == a) = false := beq_eq_false_iff_ne.mpr (Ne.symm hab)
  have hora : ∀ h : ℕ, swarm.pingPongOracle a b a h = .handoff b := by
    intro h
    unfold swarm.pingPongOracle
    rw [haa, if_pos rfl]
  have horb : ∀ h : ℕ, swarm.pingPongOracle a b b h = .handoff a := by
    intro h
    unfold swarm.pingPongOracle
    rw [hba2]
    simp
  obtain ⟨n, rfl⟩ : ∃ n, maxHops = n + 5 := ⟨maxHops - 5, by omega⟩
  have hrun : swarm.processMessage reg (swarm.pingPongOracle a b) (n + 5) 4 ⟨a, 0, []⟩ =
      ⟨none, .cycleDetected, 4, ⟨b, 3, [b, a, b]⟩⟩ := by
    unfold swarm.processMessage
    have e1 := runLoop_step_ok reg (swarm.pingPongOracle a b) (n + 5) 4 (n + 5)
      ⟨a, 0, []⟩ b ⟨b, 1, [b]⟩ (hora 0)
      (route_step_ok reg (n + 5) 4 ⟨a, 0, []⟩ b hb (by dsimp only; omega) (oscillates_one b))
    have e2 := runLoop_step_ok reg (swarm.pingPongOracle a b) (n + 5) 4 (n + 4)
      ⟨b, 1, [b]⟩ a ⟨a, 2, [a, b]⟩ (horb 1)
      (route_step_ok reg (n + 5) 4 ⟨b, 1, [b]⟩ a ha (by dsimp only; omega) (oscillates_two a b))
    have e3 := runLoop_step_ok reg (swarm.pingPongOracle a b) (n + 5) 4 (n + 3)
      ⟨a, 2, [a, b]⟩ b ⟨b, 3, [b, a, b]⟩ (hora 2)
      (route_step_ok reg (n + 5) 4 ⟨a, 2, [a, b]⟩ b hb (by dsimp only; omega)
        (oscillates_three b a b))
    have e4 := runLoop_step_cycle reg (swarm.pingPongOracle a b) (n + 5) 4 (n + 2)
      ⟨b, 3, [b, a, b]⟩ a (horb 3) ?hcyc
    case hcyc =>
      unfold swarm.route
      rw [if_neg (not_not_intro ha), if_neg (by dsimp only; omega),
        if_pos (oscillates_abab a b hab2)]
    calc swarm.runLoop reg (swarm.pingPongOracle a b) (n + 5) 4 (n + 5 + 1) ⟨a, 0, []⟩
        = swarm.runLoop reg (swarm.pingPongOracle a b) (n + 5) 4 (n + 5) ⟨b, 1, [b]⟩ := e1
    _ = swarm.runLoop reg (swarm.pingPongOracle a b) (n + 5) 4 (n + 4) ⟨a, 2, [a, b]⟩ := e2
    _ = swarm.runLoop reg (swarm.pingPongOracle a b) (n + 5) 4 (n + 3) ⟨b, 3, [b, a, b]⟩ := e3
    _ = ⟨none, .cycleDetected, 4, ⟨b, 3, [b, a, b]⟩⟩ := e4
  rw [hrun]
  exact ⟨rfl, rfl, by show 4 < n + 5; omega⟩

/-- Witness for `C7_cycle_detection`: Alice and Bob from `src/main.py`
oscillating under a hop budget of 10. -/
theorem C7_cycle_detection_witness :
    ("Alice" ∈ swarm.registryNames main.agentDefs ∧
      "Bob" ∈ swarm.registryNames main.agentDefs ∧ "Alice" ≠ "Bob" ∧ 4 < 10) ∧
    (swarm.processMessage main.agentDefs (swarm.pingPongOracle "Alice" "Bob") 10 4
      ⟨"Alice", 0, []⟩).status = .cycleDetected ∧
    (swarm.processMessage main.agentDefs (swarm.pingPongOracle "Alice" "Bob") 10 4
      ⟨"Alice", 0, []⟩).hopsUsed = 4 ∧
    (swarm.processMessage main.agentDefs (swarm.pingPongOracle "Alice" "Bob") 10 4
      ⟨"Alice", 0, []⟩).hopsUsed < 10 :=
  ⟨⟨by decide, by decide, by decide, by decide⟩,
    C7_cycle_detection main.agentDefs "Alice" "Bob" 10 (by decide) (by decide)
      (by decide) (by decide)⟩

end BobaFinder
